import Mathlib

/-!
Shallow embedding of `src/services/technical.ts` from the ai-insights
package.  JavaScript numbers are modelled as rationals (ℚ); array indexing
`xs[i]` is modelled with `List.getD xs i 0` (resp. a default record), and
the stable JavaScript sort `Array.prototype.sort` with a numeric comparator
is modelled with a stable insertion sort.  Division is the total division of
ℚ (`x / 0 = 0`), which agrees with the source wherever the divisor is
nonzero.
-/

namespace AIInsights

/-- One OHLCV bar, as built by the service from two consecutive price points. -/
structure PriceCandle where
  timestamp : ℤ
  «open» : ℚ
  close : ℚ
  high : ℚ
  low : ℚ
  volume : ℚ
  deriving DecidableEq, Repr

/-- Default candle used to model out-of-bounds array access. -/
def defCandle : PriceCandle := ⟨0, 0, 0, 0, 0, 0⟩

/-- The three trend labels used by the service. -/
inductive Trend where
  | bullish
  | bearish
  | neutral
  deriving DecidableEq, Repr

/-- String rendering of a trend label, matching the string literals of the source. -/
def Trend.toStr : Trend → String
  | .bullish => "bullish"
  | .bearish => "bearish"
  | .neutral => "neutral"

/-- Result record of `calculateMACD`. -/
structure MACDResult where
  value : ℚ
  signal : ℚ
  histogram : ℚ
  deriving DecidableEq, Repr

/-- The `movingAverages` bundle computed by `calculateIndicators`. -/
structure MovingAverages where
  sma20 : ℚ
  sma50 : ℚ
  sma200 : ℚ
  ema20 : ℚ
  deriving DecidableEq, Repr

/-- The `indicators` record computed by `calculateIndicators`. -/
structure Indicators where
  rsi : ℚ
  macd : MACDResult
  movingAverages : MovingAverages
  deriving DecidableEq, Repr

/-- A detected chart pattern. -/
structure Pattern where
  name : String
  confidence : ℚ
  implication : Trend
  priceTarget : Option ℚ
  deriving DecidableEq, Repr

/-- The `supportResistance` part of the report. -/
structure SupportResistance where
  support : List ℚ
  resistance : List ℚ
  strongestSupport : ℚ
  strongestResistance : ℚ
  deriving DecidableEq, Repr

/-- The `trend` part of the report. -/
structure TrendInfo where
  shortTerm : Trend
  mediumTerm : Trend
  confidence : ℚ
  reasoning : String
  deriving DecidableEq, Repr

/-- The fixed `volumeAnalysis` placeholder record. -/
structure VolumeAnalysis where
  trend : String
  significance : ℚ
  unusualActivity : Bool
  insight : String
  deriving DecidableEq, Repr

/-- The full technical-analysis report. -/
structure TechnicalAnalysis where
  patterns : List Pattern
  indicators : Indicators
  supportResistance : SupportResistance
  trend : TrendInfo
  volumeAnalysis : VolumeAnalysis
  deriving DecidableEq, Repr

/-- The list of close-to-close changes `closes[i] - closes[i-1]`
(the `change` values iterated over by `calculateRSI`). -/
def closeChanges (closes : List ℚ) : List ℚ :=
  (closes.zip closes.tail).map fun p => p.2 - p.1

/-- One iteration of the Wilder smoothing loop inside `calculateRSI`.  The source
hard-codes the constants `13` and `14` in this loop regardless of the
`periods` parameter. -/
def rsiStep (st : ℚ × ℚ) (change : ℚ) : ℚ × ℚ :=
  if change ≥ 0 then ((st.1 * 13 + change) / 14, st.2 * 13 / 14)
  else (st.1 * 13 / 14, (st.2 * 13 - change) / 14)

/-- The `(avgGain, avgLoss)` pair held by `calculateRSI` after its two
loops: the seed averages the gains and losses of the first `periods`
changes, then the remaining changes go through `rsiStep`. -/
def rsiAverages (candles : List PriceCandle) (periods : ℕ) : ℚ × ℚ :=
  let changes := closeChanges (candles.map (·.close))
  let seed := changes.take periods
  let gains := (seed.map fun c => if c ≥ 0 then c else 0).sum
  let losses := (seed.map fun c => if c ≥ 0 then 0 else -c).sum
  (changes.drop periods).foldl rsiStep (gains / periods, losses / periods)

/-- `calculateRSI`: guard `candles.length < periods + 1` returns 50;
`avgLoss = 0` yields 100, otherwise `100 - 100/(1 + avgGain/avgLoss)`. -/
def calculateRSI (candles : List PriceCandle) (periods : ℕ := 14) : ℚ :=
  if candles.length < periods + 1 then 50
  else if (rsiAverages candles periods).2 = 0 then 100
  else 100 - 100 / (1 + (rsiAverages candles periods).1 / (rsiAverages candles periods).2)

/-- One smoothing iteration as the specification words it: with gain
`max(change, 0)` and loss `max(-change, 0)`,
`avgGain := (avgGain*(periods-1) + gain)/periods` and
`avgLoss := (avgLoss*(periods-1) + loss)/periods`.  Second definition for
the refinement claim about `calculateRSI`; it follows the wording of the
spec, not the source. -/
def rsiSpecStep (periods : ℕ) (st : ℚ × ℚ) (change : ℚ) : ℚ × ℚ :=
  ((st.1 * ((periods : ℚ) - 1) + (if change ≥ 0 then change else 0)) / periods,
   (st.2 * ((periods : ℚ) - 1) + (if change ≥ 0 then 0 else -change)) / periods)

/-- The `(avgGain, avgLoss)` pair as the specification words it: seeded with
the mean gain and mean loss over the first `periods` changes, then smoothed
with `rsiSpecStep`.  Spec-side definition for the refinement claim. -/
def rsiSpecAverages (candles : List PriceCandle) (periods : ℕ) : ℚ × ℚ :=
  let changes := closeChanges (candles.map (·.close))
  let seed := changes.take periods
  let gains := (seed.map fun c => if c ≥ 0 then c else 0).sum
  let losses := (seed.map fun c => if c ≥ 0 then 0 else -c).sum
  (changes.drop periods).foldl (rsiSpecStep periods) (gains / periods, losses / periods)

/-- RSI as the specification words it: 50 below `periods + 1` candles, 100
when the final average loss is 0, otherwise `100 - 100/(1 + avgGain/avgLoss)`
over the `rsiSpecAverages` recurrence.  Spec-side definition for the
refinement claim. -/
def rsiSpec (candles : List PriceCandle) (periods : ℕ) : ℚ :=
  if candles.length < periods + 1 then 50
  else if (rsiSpecAverages candles periods).2 = 0 then 100
  else 100 - 100 / (1 + (rsiSpecAverages candles periods).1 / (rsiSpecAverages candles periods).2)

/-- The EMA recurrence: given the previous EMA value, each new value `v`
produces `(v - prev) * m + prev`. -/
def emaFrom (m : ℚ) (prev : ℚ) : List ℚ → List ℚ
  | [] => []
  | v :: rest =>
    let e := (v - prev) * m + prev
    e :: emaFrom m e rest

/-- `calculateEMAArray`: passthrough of the raw values when
`values.length < periods`; otherwise the array seeded with `values[0]`
followed by the EMA recurrence with multiplier `2 / (periods + 1)`. -/
def calculateEMAArray (values : List ℚ) (periods : ℕ) : List ℚ :=
  if values.length < periods then values
  else
    let multiplier : ℚ := 2 / ((periods : ℚ) + 1)
    values.getD 0 0 :: emaFrom multiplier (values.getD 0 0) values.tail

/-- `calculateEMA`: last element of `calculateEMAArray` over the closes. -/
def calculateEMA (candles : List PriceCandle) (periods : ℕ) : ℚ :=
  let prices := candles.map (·.close)
  let emaArray := calculateEMAArray prices periods
  emaArray.getD (emaArray.length - 1) 0

/-- `calculateSMA`: mean of the last `periods` closes, 0 when there are
fewer than `periods` candles. -/
def calculateSMA (candles : List PriceCandle) (periods : ℕ) : ℚ :=
  if candles.length < periods then 0
  else ((candles.drop (candles.length - periods)).map (·.close)).sum / (periods : ℚ)

/-- `calculateMACD`: EMA arrays of periods 12 and 26 over the closes, the
MACD line as the difference of their last elements, the index-wise history,
and the 9-period signal EMA of that history. -/
def calculateMACD (candles : List PriceCandle) : MACDResult :=
  let prices := candles.map (·.close)
  let ema12 := calculateEMAArray prices 12
  let ema26 := calculateEMAArray prices 26
  let macdLine := ema12.getD (ema12.length - 1) 0 - ema26.getD (ema26.length - 1) 0
  let macdHistory := (List.range prices.length).map fun i => ema12.getD i 0 - ema26.getD i 0
  let signalLine := calculateEMAArray macdHistory 9
  { value := macdLine
    signal := signalLine.getD (signalLine.length - 1) 0
    histogram := macdLine - signalLine.getD (signalLine.length - 1) 0 }

/-- `calculateIndicators`: the indicator bundle over one candle series. -/
def calculateIndicators (candles : List PriceCandle) : Indicators :=
  { rsi := calculateRSI candles
    macd := calculateMACD candles
    movingAverages :=
      { sma20 := calculateSMA candles 20
        sma50 := calculateSMA candles 50
        sma200 := calculateSMA candles 200
        ema20 := calculateEMA candles 20 } }

/-- `findSupportLevels`: pivot lows (strictly below both neighbours on each
side), deduplicated, sorted descending, first three kept. -/
def findSupportLevels (prices : List ℚ) : List ℚ :=
  let pivots := (((List.range (prices.length - 2)).drop 2).filter fun i =>
      decide (prices.getD i 0 < prices.getD (i - 1) 0) &&
      decide (prices.getD i 0 < prices.getD (i - 2) 0) &&
      decide (prices.getD i 0 < prices.getD (i + 1) 0) &&
      decide (prices.getD i 0 < prices.getD (i + 2) 0)).map fun i => prices.getD i 0
  ((pivots.dedup.insertionSort fun a b => b ≤ a).take 3)

/-- `findResistanceLevels`: pivot highs (strictly above both neighbours on
each side), deduplicated, sorted ascending, last three kept. -/
def findResistanceLevels (prices : List ℚ) : List ℚ :=
  let pivots := (((List.range (prices.length - 2)).drop 2).filter fun i =>
      decide (prices.getD i 0 > prices.getD (i - 1) 0) &&
      decide (prices.getD i 0 > prices.getD (i - 2) 0) &&
      decide (prices.getD i 0 > prices.getD (i + 1) 0) &&
      decide (prices.getD i 0 > prices.getD (i + 2) 0)).map fun i => prices.getD i 0
  let sorted := pivots.dedup.insertionSort fun a b => a ≤ b
  sorted.drop (sorted.length - 3)

/-- The divisor of the percent-change division in `determineTrend`:
`candles[candles.length - period].close`. -/
def trendDivisor (candles : List PriceCandle) (period : ℕ) : ℚ :=
  (candles.getD (candles.length - period) defCandle).close

/-- `determineTrend`: neutral when there are fewer than `period` candles,
otherwise bullish / bearish / neutral from the SMA and the percent change
over the last `period` candles. -/
def determineTrend (candles : List PriceCandle) (period : ℕ) : Trend :=
  if candles.length < period then .neutral
  else
    let sma := calculateSMA candles period
    let currentPrice := (candles.getD (candles.length - 1) defCandle).close
    let priceChange := (currentPrice - trendDivisor candles period) / trendDivisor candles period * 100
    if currentPrice > sma ∧ priceChange > 1 then .bullish
    else if currentPrice < sma ∧ priceChange < -1 then .bearish
    else .neutral

/-- The `(price, index)` pairs of the lows of the last 20 candles, sorted by
price ascending — the `recentLows` value of `isDoubleBottom` before its
`slice(0, 2)`.  The stable JavaScript sort is modelled by a stable insertion sort. -/
def recentLowsSorted (candles : List PriceCandle) : List (ℚ × ℕ) :=
  (((candles.drop (candles.length - 20)).map (·.low)).enum.map fun p =>
    (p.2, p.1)).insertionSort fun a b => a.1 ≤ b.1

/-- The divisor of the relative-price-difference division in `isDoubleBottom`:
`recentLows[0].price`. -/
def doubleBottomDivisor (candles : List PriceCandle) : ℚ :=
  ((recentLowsSorted candles).getD 0 (0, 0)).1

/-- `isDoubleBottom`: false for fewer than 20 candles; otherwise the two
lowest lows of the last 20 candles must be more than 5 positions apart with
a relative price difference below 0.02. -/
def isDoubleBottom (candles : List PriceCandle) : Bool :=
  if candles.length < 20 then false
  else
    let recentLows := (recentLowsSorted candles).take 2
    let l0 := recentLows.getD 0 (0, 0)
    let l1 := recentLows.getD 1 (0, 0)
    let indexDiff := ((l0.2 : ℤ) - (l1.2 : ℤ)).natAbs
    let priceDiff := |l0.1 - l1.1| / l0.1
    decide (indexDiff > 5 ∧ priceDiff < 1 / 50)

/-- `findPeaks`: candles whose high strictly exceeds both immediate
highs of both immediate neighbours, as `(price, index)` pairs. -/
def findPeaks (candles : List PriceCandle) : List (ℚ × ℕ) :=
  ((List.range (candles.length - 1)).drop 1).filterMap fun i =>
    if (candles.getD i defCandle).high > (candles.getD (i - 1) defCandle).high ∧
       (candles.getD i defCandle).high > (candles.getD (i + 1) defCandle).high
    then some ((candles.getD i defCandle).high, i) else none

/-- `isHeadAndShoulders`: false for fewer than 20 candles or fewer than 3
peaks; otherwise the last three peaks must form a head above two shoulders
whose relative price difference is below 0.05. -/
def isHeadAndShoulders (candles : List PriceCandle) : Bool :=
  if candles.length < 20 then false
  else
    let peaks := findPeaks (candles.drop (candles.length - 20))
    if peaks.length < 3 then false
    else
      let three := peaks.drop (peaks.length - 3)
      let leftShoulder := three.getD 0 (0, 0)
      let hd := three.getD 1 (0, 0)
      let rightShoulder := three.getD 2 (0, 0)
      decide (hd.1 > leftShoulder.1 ∧ hd.1 > rightShoulder.1 ∧
        |leftShoulder.1 - rightShoulder.1| / leftShoulder.1 < 1 / 20)

/-- The "Double Bottom" pattern record emitted by `identifyPatterns` for a
series whose last close is `lastPrice`. -/
def doubleBottomPattern (lastPrice : ℚ) : Pattern :=
  { name := "Double Bottom"
    confidence := 4 / 5
    implication := .bullish
    priceTarget := some (lastPrice * (11 / 10)) }

/-- The "Head and Shoulders" pattern record emitted by `identifyPatterns`
for a series whose last close is `lastPrice`. -/
def headAndShouldersPattern (lastPrice : ℚ) : Pattern :=
  { name := "Head and Shoulders"
    confidence := 7 / 10
    implication := .bearish
    priceTarget := some (lastPrice * (9 / 10)) }

/-- The `lastPrice` value of `identifyPatterns`: the close of the last candle. -/
def lastClose (candles : List PriceCandle) : ℚ :=
  (candles.getD (candles.length - 1) defCandle).close

/-- `identifyPatterns`: the Double Bottom and Head and Shoulders checks in
that fixed order. -/
def identifyPatterns (candles : List PriceCandle) : List Pattern :=
  (if isDoubleBottom candles then [doubleBottomPattern (lastClose candles)] else []) ++
  (if isHeadAndShoulders candles then [headAndShouldersPattern (lastClose candles)] else [])

/-- The Double Bottom condition as the claim words it: the two lowest lows
of the last 20 candles sit more than 5 positions apart, and their absolute
price difference divided by the smaller of the two prices is below 0.02. -/
def doubleBottomCond (candles : List PriceCandle) : Prop :=
  (((((recentLowsSorted candles).take 2).getD 0 (0, 0)).2 : ℤ) -
      ((((recentLowsSorted candles).take 2).getD 1 (0, 0)).2 : ℤ)).natAbs > 5 ∧
  |(((recentLowsSorted candles).take 2).getD 0 (0, 0)).1 -
      (((recentLowsSorted candles).take 2).getD 1 (0, 0)).1| /
    min ((((recentLowsSorted candles).take 2).getD 0 (0, 0)).1)
      ((((recentLowsSorted candles).take 2).getD 1 (0, 0)).1) < 1 / 50

/-- `calculateTrendConfidence`: six weighted signal checks summed and capped
at 1. -/
def calculateTrendConfidence (fifteenMin oneHour fourHour : List PriceCandle)
    (indicators : Indicators) : ℚ :=
  let c1 : ℚ := if indicators.rsi > 70 ∨ indicators.rsi < 30 then 1 / 5 else 0
  let c2 : ℚ := if |indicators.macd.histogram| > |indicators.macd.signal| then 1 / 5 else 0
  let c3 : ℚ := if indicators.movingAverages.sma20 > indicators.movingAverages.sma50 then 1 / 5 else 0
  let c4 : ℚ := if indicators.movingAverages.sma50 > indicators.movingAverages.sma200 then 1 / 5 else 0
  let fifteenMinTrend := determineTrend fifteenMin 20
  let hourTrend := determineTrend oneHour 50
  let fourHourTrend := determineTrend fourHour 50
  let c5 : ℚ := if fifteenMinTrend = hourTrend then 1 / 10 else 0
  let c6 : ℚ := if hourTrend = fourHourTrend then 1 / 10 else 0
  min (c1 + c2 + c3 + c4 + c5 + c6) 1

/-- `analyzeVolume`: the fixed placeholder record. -/
def analyzeVolume (_candles : List PriceCandle) : VolumeAnalysis :=
  { trend := "unknown"
    significance := 0
    unusualActivity := false
    insight := "Volume analysis not available for this token" }

/-- `generateTrendReasoning`: the deterministic clause concatenation. -/
def generateTrendReasoning (shortTerm mediumTerm : Trend)
    (indicators : Indicators) : String :=
  let reasons : List String :=
    (if shortTerm = mediumTerm then
      ["Consistent " ++ shortTerm.toStr ++ " trend across timeframes"]
     else
      ["Mixed signals: " ++ shortTerm.toStr ++ " short-term, " ++
        mediumTerm.toStr ++ " medium-term"]) ++
    (if indicators.rsi > 70 then
      ["Overbought RSI conditions suggest potential pullback"]
     else if indicators.rsi < 30 then
      ["Oversold RSI conditions suggest potential bounce"]
     else []) ++
    (if indicators.macd.histogram > 0 ∧ indicators.macd.histogram > indicators.macd.signal then
      ["MACD showing strong positive momentum"]
     else if indicators.macd.histogram < 0 ∧ indicators.macd.histogram < indicators.macd.signal then
      ["MACD indicating negative momentum"]
     else []) ++
    (if indicators.movingAverages.sma20 > indicators.movingAverages.sma50 then
      if indicators.movingAverages.sma50 > indicators.movingAverages.sma200 then
        ["All moving averages aligned bullishly (20 > 50 > 200)"]
      else
        ["Short-term moving averages bullish but long-term resistance ahead"]
     else if indicators.movingAverages.sma20 < indicators.movingAverages.sma50 then
      if indicators.movingAverages.sma50 < indicators.movingAverages.sma200 then
        ["All moving averages aligned bearishly (20 < 50 < 200)"]
      else
        ["Short-term moving averages bearish but long-term support present"]
     else [])
  String.intercalate ". " reasons

/-- `performAnalysis`: assembles the full report from the three candle
series and the indicator bundle. -/
def performAnalysis (fifteenMin oneHour fourHour : List PriceCandle)
    (indicators : Indicators) : TechnicalAnalysis :=
  let prices := oneHour.map (·.close)
  let supportLevels := findSupportLevels prices
  let resistanceLevels := findResistanceLevels prices
  let shortTermTrend := determineTrend fifteenMin 20
  let mediumTermTrend := determineTrend oneHour 50
  { patterns := identifyPatterns oneHour
    indicators := indicators
    supportResistance :=
      { support := supportLevels
        resistance := resistanceLevels
        strongestSupport := supportLevels.getD 0 0
        strongestResistance := resistanceLevels.getD (resistanceLevels.length - 1) 0 }
    trend :=
      { shortTerm := shortTermTrend
        mediumTerm := mediumTermTrend
        confidence := calculateTrendConfidence fifteenMin oneHour fourHour indicators
        reasoning := generateTrendReasoning shortTermTrend mediumTermTrend indicators }
    volumeAnalysis := analyzeVolume oneHour }

/-- `getDefaultAnalysis`: the fixed default report. -/
def getDefaultAnalysis : TechnicalAnalysis :=
  { patterns := []
    indicators :=
      { rsi := 50
        macd := { value := 0, signal := 0, histogram := 0 }
        movingAverages := { sma20 := 0, sma50 := 0, sma200 := 0, ema20 := 0 } }
    supportResistance :=
      { support := [], resistance := [], strongestSupport := 0, strongestResistance := 0 }
    trend :=
      { shortTerm := .neutral
        mediumTerm := .neutral
        confidence := 0
        reasoning := "Insufficient data for analysis" }
    volumeAnalysis :=
      { trend := "unknown"
        significance := 0
        unusualActivity := false
        insight := "Volume analysis not available for this token" } }

/-- The per-request computation of `analyzeTechnicals` after the three
timeframe series have been fetched (cache and fetch are external
collaborators): the default report when any series is empty, otherwise the
full analysis over the 1-hour indicators. -/
def analyzeTechnicals (fifteenMin oneHour fourHour : List PriceCandle) : TechnicalAnalysis :=
  if oneHour.length = 0 ∨ fifteenMin.length = 0 ∨ fourHour.length = 0 then
    getDefaultAnalysis
  else
    performAnalysis fifteenMin oneHour fourHour (calculateIndicators oneHour)

/-- Test fixture: a flat candle whose four prices all equal `x`. -/
def mkCandle (x : ℚ) : PriceCandle := ⟨0, x, x, x, x, 0⟩

/-- Test fixture: 20 candles whose first price is 0 and the rest 1.  Its
length passes both the `determineTrend` period-20 guard and the
`isDoubleBottom` 20-candle guard, while the close 20 bars back and the
smallest recent low are both 0. -/
def zeroLeadCandles : List PriceCandle := ((0 : ℚ) :: List.replicate 19 (1 : ℚ)).map mkCandle

/-- Test fixture: five candles with closes 10, 10, 8, 8, 9 — long enough for
RSI with period 2 to run one smoothing update of each sign. -/
def fiveCandles : List PriceCandle := ([10, 10, 8, 8, 9] : List ℚ).map mkCandle

/-- Test fixture: 20 candles whose lows dip to 5 at positions 2 and 9 and
whose last close is 12 — a Double Bottom window. -/
def doubleBottomCandles : List PriceCandle :=
  ([10, 10, 5, 10, 10, 10, 10, 10, 10, 5, 10, 10, 10, 10, 10, 10, 10, 10, 10, 12] : List ℚ).map
    mkCandle

/-- Test fixture: 15 candles with strictly increasing closes 0, 1, ..., 14. -/
def risingCandles : List PriceCandle := ((List.range 15).map fun i => ((i : ℚ))).map mkCandle

lemma closeChanges_nil : closeChanges [] = [] := rfl

lemma closeChanges_singleton (a : ℚ) : closeChanges [a] = [] := rfl

lemma closeChanges_cons_cons (a b : ℚ) (l : List ℚ) :
    closeChanges (a :: b :: l) = (b - a) :: closeChanges (b :: l) := rfl

lemma closeChanges_pos {xs : List ℚ} (h : xs.Chain' (· < ·)) :
    ∀ c ∈ closeChanges xs, 0 < c := by
  induction xs with
  | nil => simp [closeChanges_nil]
  | cons a t ih =>
    cases t with
    | nil => simp [closeChanges_singleton]
    | cons b l =>
      rw [List.chain'_cons] at h
      intro c hc
      rw [closeChanges_cons_cons] at hc
      rcases List.mem_cons.1 hc with rfl | hc
      · exact sub_pos.2 h.1
      · exact ih h.2 c hc

lemma foldl_rsiStep_snd_zero :
    ∀ (l : List ℚ), (∀ c ∈ l, (0 : ℚ) ≤ c) → ∀ ag : ℚ, (l.foldl rsiStep (ag, 0)).2 = 0 := by
  intro l
  induction l with
  | nil => intro _ ag; rfl
  | cons c t ih =>
    intro h ag
    have hc : (0 : ℚ) ≤ c := h c (List.mem_cons_self c t)
    have hstep : rsiStep (ag, 0) c = ((ag * 13 + c) / 14, 0) := by
      simp [rsiStep, hc]
    rw [List.foldl_cons, hstep]
    exact ih (fun x hx => h x (List.mem_cons_of_mem c hx)) _

lemma rsiAverages_snd_zero (candles : List PriceCandle) (periods : ℕ)
    (h : (candles.map (·.close)).Chain' (· < ·)) :
    (rsiAverages candles periods).2 = 0 := by
  unfold rsiAverages
  dsimp only
  have hpos := closeChanges_pos h
  have hlosses :
      (((closeChanges (candles.map (·.close))).take periods).map
        fun c => if c ≥ 0 then (0 : ℚ) else -c).sum = 0 := by
    apply List.sum_eq_zero
    intro x hx
    rcases List.mem_map.1 hx with ⟨c, hc, rfl⟩
    have := hpos c (List.mem_of_mem_take hc)
    simp [le_of_lt this]
  rw [hlosses, zero_div]
  exact foldl_rsiStep_snd_zero _
    (fun c hc => le_of_lt (hpos c (List.mem_of_mem_drop hc))) _

lemma foldl_rsiStep_nonneg :
    ∀ (l : List ℚ) (st : ℚ × ℚ), 0 ≤ st.1 → 0 ≤ st.2 →
      0 ≤ (l.foldl rsiStep st).1 ∧ 0 ≤ (l.foldl rsiStep st).2 := by
  intro l
  induction l with
  | nil => intro st h1 h2; exact ⟨h1, h2⟩
  | cons c t ih =>
    intro st h1 h2
    rw [List.foldl_cons]
    apply ih
    · unfold rsiStep
      split
      · have hc : (0 : ℚ) ≤ c := by assumption
        have : (0 : ℚ) ≤ st.1 * 13 + c := by positivity
        positivity
      · positivity
    · unfold rsiStep
      split
      · positivity
      · rename ¬(c ≥ 0) => hc
        have hc2 : c < 0 := lt_of_not_ge hc
        have : (0 : ℚ) ≤ st.2 * 13 - c := by nlinarith
        positivity

lemma rsiAverages_nonneg (candles : List PriceCandle) (periods : ℕ) :
    0 ≤ (rsiAverages candles periods).1 ∧ 0 ≤ (rsiAverages candles periods).2 := by
  unfold rsiAverages
  apply foldl_rsiStep_nonneg
  · apply div_nonneg _ (Nat.cast_nonneg periods)
    apply List.sum_nonneg
    intro x hx
    rcases List.mem_map.1 hx with ⟨c, _, rfl⟩
    split <;> simp_all
  · apply div_nonneg _ (Nat.cast_nonneg periods)
    apply List.sum_nonneg
    intro x hx
    rcases List.mem_map.1 hx with ⟨c, _, rfl⟩
    split
    · simp
    · rename ¬(c ≥ 0) => hc
      simp [le_of_lt (lt_of_not_ge hc)]

lemma emaFrom_length (m : ℚ) : ∀ (p : ℚ) (l : List ℚ), (emaFrom m p l).length = l.length := by
  intro p l
  induction l generalizing p with
  | nil => rfl
  | cons v rest ih => simp [emaFrom, ih]

lemma calculateEMAArray_length (values : List ℚ) (periods : ℕ)
    (h : 0 < periods ∨ values ≠ []) :
    (calculateEMAArray values periods).length = values.length := by
  unfold calculateEMAArray
  split
  · rfl
  · rename ¬(values.length < periods) => hge
    have hlen : 1 ≤ values.length := by
      rcases h with hp | hv
      · omega
      · exact List.length_pos.2 hv
    simp only [List.length_cons, emaFrom_length, List.length_tail]
    omega

lemma emaFrom_zero (m : ℚ) : ∀ k, emaFrom m 0 (List.replicate k (0 : ℚ)) = List.replicate k 0 := by
  intro k
  induction k with
  | zero => rfl
  | succ n ih => simp [List.replicate_succ, emaFrom, ih]

lemma getD_replicate_zero : ∀ (n i : ℕ), (List.replicate n (0 : ℚ)).getD i 0 = 0 := by
  intro n
  induction n with
  | zero => intro i; cases i <;> rfl
  | succ k ih =>
    intro i
    cases i with
    | zero => simp [List.replicate_succ]
    | succ j => simp [List.replicate_succ, List.getD_cons_succ, ih]

lemma calculateEMAArray_replicate_zero (n p : ℕ) (hp : 0 < p) :
    calculateEMAArray (List.replicate n (0 : ℚ)) p = List.replicate n 0 := by
  unfold calculateEMAArray
  split
  · rfl
  · rename ¬((List.replicate n (0 : ℚ)).length < p) => hge
    rw [List.length_replicate] at hge
    obtain ⟨k, rfl⟩ : ∃ k, n = k + 1 := ⟨n - 1, by omega⟩
    simp [List.replicate_succ, emaFrom_zero]

lemma macd_zero (candles : List PriceCandle) (h : candles.length < 12) :
    calculateMACD candles = ⟨0, 0, 0⟩ := by
  have hlen : (candles.map (·.close)).length = candles.length := List.length_map _ _
  unfold calculateMACD
  dsimp only
  have h12 : calculateEMAArray (candles.map (·.close)) 12 = candles.map (·.close) := by
    unfold calculateEMAArray
    rw [if_pos (by omega)]
  have h26 : calculateEMAArray (candles.map (·.close)) 26 = candles.map (·.close) := by
    unfold calculateEMAArray
    rw [if_pos (by omega)]
  rw [h12, h26]
  have hhist : (List.range (candles.map (·.close)).length).map
      (fun i => (candles.map (·.close)).getD i 0 - (candles.map (·.close)).getD i 0) =
      List.replicate candles.length (0 : ℚ) := by
    simp [sub_self, List.map_const', hlen]
  rw [hhist, calculateEMAArray_replicate_zero _ 9 (by norm_num)]
  simp [getD_replicate_zero]

lemma getD_length_sub_one_eq_getLastD (l : List ℚ) :
    l.getD (l.length - 1) 0 = l.getLastD 0 := by
  rw [List.getLastD_eq_getLast?, List.getD_eq_getElem?_getD, List.getLast?_eq_getElem?]

/-- C1 (as stated is false; see the counterexample): a one-candle series is
shorter than the 20-candle EMA window, yet `ema20` is the close of that
candle, not the claimed 0. -/
theorem C1_counterexample :
    [mkCandle 5].length < 20 ∧ calculateEMA [mkCandle 5] 20 ≠ 0 := by
  constructor
  · decide
  · decide

/-- C1 amended: when the bar sequence is shorter than the required window,
RSI returns 50 and each SMA returns 0; for a nonempty sequence shorter than
12 bars every MACD component is 0; but `ema20` on a nonempty sequence
shorter than 20 bars is the last close (the EMA passthrough), not 0. -/
theorem C1_short_series_defaults (candles : List PriceCandle) :
    (candles.length < 15 → calculateRSI candles = 50) ∧
    (candles.length < 20 → calculateSMA candles 20 = 0) ∧
    (candles.length < 50 → calculateSMA candles 50 = 0) ∧
    (candles.length < 200 → calculateSMA candles 200 = 0) ∧
    (0 < candles.length → candles.length < 12 → calculateMACD candles = ⟨0, 0, 0⟩) ∧
    (0 < candles.length → candles.length < 20 →
      calculateEMA candles 20 = (candles.map (·.close)).getLastD 0) := by
  refine ⟨?_, ?_, ?_, ?_, ?_, ?_⟩
  · intro h
    unfold calculateRSI
    rw [if_pos (by omega)]
  · intro h
    unfold calculateSMA
    rw [if_pos (by omega)]
  · intro h
    unfold calculateSMA
    rw [if_pos (by omega)]
  · intro h
    unfold calculateSMA
    rw [if_pos (by omega)]
  · intro _ h
    exact macd_zero candles h
  · intro _ h
    unfold calculateEMA
    dsimp only
    have hpass : calculateEMAArray (candles.map (·.close)) 20 = candles.map (·.close) := by
      unfold calculateEMAArray
      rw [if_pos (by simp [List.length_map]; omega)]
    rw [hpass, getD_length_sub_one_eq_getLastD]

/-- C1 witness: the amended statement evaluated on the five-candle fixture. -/
theorem C1_witness :
    calculateRSI fiveCandles = 50 ∧ calculateSMA fiveCandles 20 = 0 ∧
    calculateSMA fiveCandles 50 = 0 ∧ calculateSMA fiveCandles 200 = 0 ∧
    calculateMACD fiveCandles = ⟨0, 0, 0⟩ ∧
    calculateEMA fiveCandles 20 = (fiveCandles.map (·.close)).getLastD 0 := by
  obtain ⟨h1, h2, h3, h4, h5, h6⟩ := C1_short_series_defaults fiveCandles
  exact ⟨h1 (by decide), h2 (by decide), h3 (by decide), h4 (by decide),
    h5 (by decide) (by decide), h6 (by decide) (by decide)⟩

/-- C2 (as stated is false): on a 20-candle series whose oldest close is 0,
`determineTrend` with period 20 passes its length guard and divides by
`candles[length - 20].close = 0` with no zero check. -/
theorem C2_counterexample :
    20 ≤ zeroLeadCandles.length ∧ trendDivisor zeroLeadCandles 20 = 0 := by
  constructor
  · decide
  · decide

/-- C2 amended: the RSI divisions are guarded — RSI either returns one of its
guarded constants or divides by a nonzero `avgLoss` (and by `1 + avgGain /
avgLoss`, which is then positive) — but `determineTrend` and `isDoubleBottom`
divide by an unchecked price: on `zeroLeadCandles` both length guards pass
while the respective divisors are 0. -/
theorem C2_division_guards :
    (∀ (candles : List PriceCandle) (periods : ℕ),
      calculateRSI candles periods = 50 ∨ calculateRSI candles periods = 100 ∨
        ((rsiAverages candles periods).2 ≠ 0 ∧
          1 + (rsiAverages candles periods).1 / (rsiAverages candles periods).2 ≠ 0)) ∧
    (20 ≤ zeroLeadCandles.length ∧ trendDivisor zeroLeadCandles 20 = 0) ∧
    (20 ≤ zeroLeadCandles.length ∧ doubleBottomDivisor zeroLeadCandles = 0) := by
  refine ⟨?_, ⟨by decide, by decide⟩, ⟨by decide, by decide⟩⟩
  intro candles periods
  unfold calculateRSI
  split
  · exact Or.inl rfl
  · split
    · exact Or.inr (Or.inl rfl)
    · rename ¬((rsiAverages candles periods).2 = 0) => hz
      obtain ⟨hg, hl⟩ := rsiAverages_nonneg candles periods
      have hlpos : 0 < (rsiAverages candles periods).2 := lt_of_le_of_ne hl (Ne.symm hz)
      have hdiv : 0 ≤ (rsiAverages candles periods).1 / (rsiAverages candles periods).2 :=
        div_nonneg hg hl
      exact Or.inr (Or.inr ⟨hz, ne_of_gt (by linarith)⟩)

/-- C3 (as stated is false): with period 2 on the five-candle fixture the
source smooths with the hard-coded constants 13 and 14 and returns 1400/183,
while the claimed `(p-1)/p` recurrence returns 200/3. -/
theorem C3_counterexample :
    2 + 1 ≤ fiveCandles.length ∧ calculateRSI fiveCandles 2 ≠ rsiSpec fiveCandles 2 := by
  constructor
  · decide
  · have h1 : calculateRSI fiveCandles 2 = 1400 / 183 := by
      norm_num [calculateRSI, rsiAverages, closeChanges, rsiStep, fiveCandles, mkCandle]
    have h2 : rsiSpec fiveCandles 2 = 200 / 3 := by
      norm_num [rsiSpec, rsiSpecAverages, closeChanges, rsiSpecStep, fiveCandles, mkCandle]
    rw [h1, h2]
    norm_num

lemma rsiStep_eq_spec14 : rsiStep = rsiSpecStep 14 := by
  funext st c
  unfold rsiStep rsiSpecStep
  split <;>
    · simp only [Prod.mk.injEq]
      push_cast
      constructor <;> ring_nf

lemma rsiAverages_eq_spec14 (candles : List PriceCandle) :
    rsiAverages candles 14 = rsiSpecAverages candles 14 := by
  unfold rsiAverages rsiSpecAverages
  rw [rsiStep_eq_spec14]

/-- C3 amended: the claimed seed/recurrence description of RSI holds exactly
at the default period 14 (where `p - 1 = 13` and `p = 14` coincide with the
hard-coded constants): `calculateRSI` agrees with the spec-side `rsiSpec`
at period 14 on every bar sequence. -/
theorem C3_rsi_matches_spec_at_14 (candles : List PriceCandle) :
    calculateRSI candles 14 = rsiSpec candles 14 := by
  unfold calculateRSI rsiSpec
  rw [rsiAverages_eq_spec14]

/-- C4: if any of the three fetched timeframe series is empty, the analysis
is exactly the fixed default report — no patterns, rsi 50, all other
indicator fields 0, empty support/resistance with strongest levels 0,
neutral trends with confidence 0 and reasoning
"Insufficient data for analysis", and the fixed volume placeholder. -/
theorem C4_default_on_empty (fifteenMin oneHour fourHour : List PriceCandle)
    (h : fifteenMin = [] ∨ oneHour = [] ∨ fourHour = []) :
    analyzeTechnicals fifteenMin oneHour fourHour =
      { patterns := []
        indicators :=
          { rsi := 50
            macd := { value := 0, signal := 0, histogram := 0 }
            movingAverages := { sma20 := 0, sma50 := 0, sma200 := 0, ema20 := 0 } }
        supportResistance :=
          { support := [], resistance := [], strongestSupport := 0, strongestResistance := 0 }
        trend :=
          { shortTerm := .neutral
            mediumTerm := .neutral
            confidence := 0
            reasoning := "Insufficient data for analysis" }
        volumeAnalysis :=
          { trend := "unknown"
            significance := 0
            unusualActivity := false
            insight := "Volume analysis not available for this token" } } := by
  have hguard : oneHour.length = 0 ∨ fifteenMin.length = 0 ∨ fourHour.length = 0 := by
    rcases h with h | h | h <;> simp [h]
  unfold analyzeTechnicals
  rw [if_pos hguard]
  rfl

/-- C4 witness: the default report is produced when the 15-minute series is
empty and the other two are not. -/
theorem C4_witness :
    analyzeTechnicals [] fiveCandles fiveCandles = getDefaultAnalysis := by
  rw [C4_default_on_empty [] fiveCandles fiveCandles (Or.inl rfl)]
  rfl

/-- C6: on a strictly increasing close sequence of length at least 15, RSI
with the default period 14 is exactly 100 — the average loss is 0 after the
seed and stays 0 through every smoothing update. -/
theorem C6_rsi_100_on_rising (candles : List PriceCandle)
    (hlen : 15 ≤ candles.length)
    (hmono : (candles.map (·.close)).Chain' (· < ·)) :
    calculateRSI candles 14 = 100 := by
  unfold calculateRSI
  rw [if_neg (by omega), if_pos (rsiAverages_snd_zero candles 14 hmono)]

/-- C6 witness: RSI of the strictly increasing 15-candle fixture is 100. -/
theorem C6_witness : calculateRSI risingCandles 14 = 100 := by
  apply C6_rsi_100_on_rising
  · decide
  · show (risingCandles.map (·.close)).Chain' (· < ·)
    norm_num [risingCandles, mkCandle, List.range_succ, List.chain'_cons]

/-- C8: the composite trend confidence is always in the interval [0, 1],
for every combination of candle series and indicator values. -/
theorem C8_confidence_in_unit_interval (fifteenMin oneHour fourHour : List PriceCandle)
    (indicators : Indicators) :
    0 ≤ calculateTrendConfidence fifteenMin oneHour fourHour indicators ∧
    calculateTrendConfidence fifteenMin oneHour fourHour indicators ≤ 1 := by
  unfold calculateTrendConfidence
  dsimp only
  constructor
  · refine le_min ?_ zero_le_one
    split_ifs <;> norm_num
  · exact min_le_right _ _

/-- C9: when the full MACD path runs on a nonempty series of fewer than 9
bars, both EMA arrays and the signal EMA fall back to passthrough, so the
signal equals the MACD line and the histogram is exactly 0. -/
theorem C9_macd_signal_degenerate (candles : List PriceCandle)
    (h0 : 0 < candles.length) (h9 : candles.length < 9) :
    (calculateMACD candles).signal = (calculateMACD candles).value ∧
    (calculateMACD candles).histogram = 0 := by
  rw [macd_zero candles (by omega)]
  exact ⟨rfl, rfl⟩

/-- C9 witness: MACD on the five-candle fixture. -/
theorem C9_witness :
    (calculateMACD fiveCandles).signal = (calculateMACD fiveCandles).value ∧
    (calculateMACD fiveCandles).histogram = 0 :=
  C9_macd_signal_degenerate fiveCandles (by decide) (by decide)

/-- C10 (as stated is false): on the empty list with period 0 the source
builds `[values[0]]`, an array of length 1, not of the input length 0. -/
theorem C10_counterexample :
    (calculateEMAArray ([] : List ℚ) 0).length ≠ ([] : List ℚ).length := by
  decide

/-- C10 amended: except for the corner of an empty input with period 0 (where
the source returns a one-element array), the EMA series has exactly the
length of its input; in particular the MACD arrays of periods 12 and 26
cover every price index, so the index-wise subtraction stays in bounds. -/
theorem C10_ema_array_length :
    (∀ (values : List ℚ) (periods : ℕ), 0 < periods ∨ values ≠ [] →
      (calculateEMAArray values periods).length = values.length) ∧
    (∀ (candles : List PriceCandle) (i : ℕ), i < candles.length →
      i < (calculateEMAArray (candles.map (·.close)) 12).length ∧
      i < (calculateEMAArray (candles.map (·.close)) 26).length) := by
  constructor
  · exact fun values periods h => calculateEMAArray_length values periods h
  · intro candles i hi
    rw [calculateEMAArray_length _ 12 (Or.inl (by norm_num)),
      calculateEMAArray_length _ 26 (Or.inl (by norm_num)), List.length_map]
    exact ⟨hi, hi⟩

/-- C10 witness: the length identity and the MACD index bounds on concrete
inputs. -/
theorem C10_witness :
    (calculateEMAArray [(1 : ℚ), 2, 3] 2).length = 3 ∧
    (0 < (calculateEMAArray (fiveCandles.map (·.close)) 12).length ∧
      0 < (calculateEMAArray (fiveCandles.map (·.close)) 26).length) := by
  constructor
  · exact C10_ema_array_length.1 [(1 : ℚ), 2, 3] 2 (Or.inl (by decide))
  · exact C10_ema_array_length.2 fiveCandles 0 (by decide)

instance : IsTotal (ℚ × ℕ) (fun a b => a.1 ≤ b.1) := ⟨fun a b => le_total a.1 b.1⟩

instance : IsTrans (ℚ × ℕ) (fun a b => a.1 ≤ b.1) := ⟨fun _ _ _ h1 h2 => le_trans h1 h2⟩

instance : IsTotal ℚ (fun a b => b ≤ a) := ⟨fun a b => le_total b a⟩

instance : IsTrans ℚ (fun a b => b ≤ a) := ⟨fun _ _ _ h1 h2 => le_trans h2 h1⟩

instance : IsTotal ℚ (fun a b => a ≤ b) := ⟨fun a b => le_total a b⟩

instance : IsTrans ℚ (fun a b => a ≤ b) := ⟨fun _ _ _ h1 h2 => le_trans h1 h2⟩

lemma insertionSort_desc_pairwise_gt (l : List ℚ) (h : l.Nodup) :
    (l.insertionSort fun a b => b ≤ a).Pairwise (· > ·) := by
  have hs : List.Sorted (fun a b : ℚ => b ≤ a) (l.insertionSort fun a b => b ≤ a) :=
    List.sorted_insertionSort _ _
  have hn : (l.insertionSort fun a b => b ≤ a).Nodup :=
    ((List.perm_insertionSort _ l).nodup_iff).2 h
  exact (hs.and hn).imp fun hab => (hab.2.symm).lt_of_le hab.1

lemma insertionSort_asc_pairwise_lt (l : List ℚ) (h : l.Nodup) :
    (l.insertionSort fun a b => a ≤ b).Pairwise (· < ·) := by
  have hs : List.Sorted (fun a b : ℚ => a ≤ b) (l.insertionSort fun a b => a ≤ b) :=
    List.sorted_insertionSort _ _
  have hn : (l.insertionSort fun a b => a ≤ b).Nodup :=
    ((List.perm_insertionSort _ l).nodup_iff).2 h
  exact (hs.and hn).imp fun hab => hab.2.lt_of_le hab.1

/-- C7: the support list is strictly descending (hence duplicate-free) with
at most 3 entries, the resistance list strictly ascending with at most 3
entries, and price series shorter than 5 points yield both lists empty. -/
theorem C7_levels_sorted_bounded (prices : List ℚ) :
    (findSupportLevels prices).Pairwise (· > ·) ∧ (findSupportLevels prices).length ≤ 3 ∧
    (findResistanceLevels prices).Pairwise (· < ·) ∧
    (findResistanceLevels prices).length ≤ 3 ∧
    (prices.length < 5 → findSupportLevels prices = [] ∧ findResistanceLevels prices = []) := by
  refine ⟨?_, ?_, ?_, ?_, ?_⟩
  · unfold findSupportLevels
    dsimp only
    exact List.Pairwise.sublist (List.take_sublist 3 _)
      (insertionSort_desc_pairwise_gt _ (List.nodup_dedup _))
  · unfold findSupportLevels
    dsimp only
    rw [List.length_take]
    exact min_le_left _ _
  · unfold findResistanceLevels
    dsimp only
    exact List.Pairwise.sublist (List.drop_sublist _ _)
      (insertionSort_asc_pairwise_lt _ (List.nodup_dedup _))
  · unfold findResistanceLevels
    dsimp only
    rw [List.length_drop]
    omega
  · intro h5
    have hnil : ((List.range (prices.length - 2)).drop 2) = [] :=
      List.drop_eq_nil_of_le (by rw [List.length_range]; omega)
    constructor
    · unfold findSupportLevels
      rw [hnil]
      rfl
    · unfold findResistanceLevels
      rw [hnil]
      rfl

/-- C7 witness: a three-point price series yields empty level lists. -/
theorem C7_witness :
    findSupportLevels [1, 2, 3] = [] ∧ findResistanceLevels [1, 2, 3] = [] :=
  (C7_levels_sorted_bounded [1, 2, 3]).2.2.2.2 (by decide)

lemma recentLowsSorted_sorted (candles : List PriceCandle) :
    List.Sorted (fun a b : ℚ × ℕ => a.1 ≤ b.1) (recentLowsSorted candles) :=
  List.sorted_insertionSort _ _

lemma recentLowsSorted_length (candles : List PriceCandle) (h : 20 ≤ candles.length) :
    (recentLowsSorted candles).length = 20 := by
  unfold recentLowsSorted
  rw [(List.perm_insertionSort _ _).length_eq]
  simp only [List.length_map, List.enum_length, List.length_drop]
  omega

lemma recentLowsSorted_two (candles : List PriceCandle) (h : 20 ≤ candles.length) :
    ∃ a b t, recentLowsSorted candles = a :: b :: t ∧ a.1 ≤ b.1 := by
  have hl := recentLowsSorted_length candles h
  have hs := recentLowsSorted_sorted candles
  cases hrl : recentLowsSorted candles with
  | nil => rw [hrl] at hl; simp at hl
  | cons a t =>
    cases t with
    | nil => rw [hrl] at hl; simp at hl
    | cons b t2 =>
      refine ⟨a, b, t2, rfl, ?_⟩
      rw [hrl] at hs
      exact (List.pairwise_cons.1 hs).1 b (List.mem_cons_self b t2)

lemma db_mem_iff (candles : List PriceCandle) :
    (doubleBottomPattern (lastClose candles) ∈ identifyPatterns candles) ↔
      isDoubleBottom candles = true := by
  unfold identifyPatterns
  rw [List.mem_append]
  constructor
  · rintro (h | h)
    · by_cases hdb : isDoubleBottom candles
      · exact hdb
      · rw [if_neg hdb] at h
        cases h
    · exfalso
      by_cases hhs : isHeadAndShoulders candles
      · rw [if_pos hhs] at h
        have heq := List.mem_singleton.1 h
        have hname := congrArg Pattern.name heq
        simp only [doubleBottomPattern, headAndShouldersPattern] at hname
        exact absurd hname (by decide)
      · rw [if_neg hhs] at h
        cases h
  · intro h
    left
    rw [if_pos h]
    exact List.mem_singleton_self _

lemma isDoubleBottom_iff_cond (candles : List PriceCandle) (h20 : 20 ≤ candles.length) :
    isDoubleBottom candles = true ↔ doubleBottomCond candles := by
  obtain ⟨a, b, t, hab, hle⟩ := recentLowsSorted_two candles h20
  unfold isDoubleBottom doubleBottomCond
  rw [if_neg (by omega)]
  rw [hab]
  simp only [List.take_succ_cons, List.take_zero, List.getD_cons_zero, List.getD_cons_succ]
  rw [decide_eq_true_eq, min_eq_left hle]

/-- C5: the Double Bottom pattern record (confidence 0.8, bullish, price
target 1.1 times the last close) is emitted exactly when the series has at
least 20 bars and the two lowest lows of the last 20 bars sit more than 5
positions apart with a relative price difference below 0.02; in particular
shorter series never emit it. -/
theorem C5_double_bottom_iff (candles : List PriceCandle) :
    doubleBottomPattern (lastClose candles) ∈ identifyPatterns candles ↔
      20 ≤ candles.length ∧ doubleBottomCond candles := by
  rw [db_mem_iff]
  by_cases h20 : 20 ≤ candles.length
  · rw [isDoubleBottom_iff_cond candles h20]
    simp [h20]
  · constructor
    · intro h
      unfold isDoubleBottom at h
      rw [if_pos (by omega)] at h
      simp at h
    · rintro ⟨h, _⟩
      exact absurd h h20

/-- C5 witness: the Double Bottom fixture emits the pattern. -/
theorem C5_witness :
    doubleBottomPattern (lastClose doubleBottomCandles) ∈
      identifyPatterns doubleBottomCandles :=
  (C5_double_bottom_iff doubleBottomCandles).mpr ⟨by decide, by
    norm_num [doubleBottomCond, recentLowsSorted, doubleBottomCandles, mkCandle,
      List.insertionSort, List.orderedInsert]⟩

end AIInsights
